import Mathlib

/-!
Shallow embedding of scripts/tracy.py: a command-line helper that builds,
cleans and runs the tracy profiler from a vendored source tree.

The filesystem is modelled as a partial map from paths (component lists)
to entries (directories or files with contents and permission bits).
External processes (git reset, make, the launched profiler) have
unspecified effects, so they are supplied by an `Env` record as oracles;
the git reset runs with the vendored checkout as working directory, so its
effect is restricted to paths under that checkout.  Every externally
observable action (tool lookup on PATH, print, child-process spawn) is
recorded in an event trace.  Python-level termination — a normal return,
`exit(code)`, or an uncaught exception — is an `Outcome`.
-/

/-- A filesystem path, as a list of components relative to the project root. -/
abbrev FPath := List String

/-- A filesystem entry: a directory or a file with byte contents and mode bits. -/
inductive Entry : Type
  | dir (mode : Nat)
  | file (contents : List Nat) (mode : Nat)
deriving DecidableEq

/-- Permission bits of an entry (st_mode). -/
def Entry.mode : Entry → Nat
  | .dir m => m
  | .file _ m => m

/-- The same entry with its mode bits replaced (os.chmod). -/
def Entry.withMode : Entry → Nat → Entry
  | .dir _, m => .dir m
  | .file c _, m => .file c m

/-- The filesystem: a partial map from paths to entries. -/
abbrev FS := FPath → Option Entry

/-- os.path.exists. -/
def FS.pathExists (fs : FS) (p : FPath) : Bool :=
  (fs p).isSome

/-- base.isUnder q: q equals base or lies inside the subtree rooted at base. -/
def isUnder : FPath → FPath → Bool
  | [], _ => true
  | _ :: _, [] => false
  | a :: as, b :: bs => a == b && isUnder as bs

/-- os.mkdir: create a directory entry at p (callers guard existence). -/
def FS.mkdir (fs : FS) (p : FPath) (mode : Nat) : FS :=
  fun q => if q = p then some (.dir mode) else fs q

/-- shutil.rmtree: remove p and everything under it. -/
def FS.rmtree (fs : FS) (p : FPath) : FS :=
  fun q => if isUnder p q then none else fs q

/-- shutil.copyfile: copy the contents of src to dst.  If dst already is a
file its mode bits are kept (copyfile truncates in place), otherwise dst is
created with the default creation mode 0o644.  Callers guard that src
exists, so a missing src leaves the filesystem unchanged here. -/
def FS.copyfile (fs : FS) (src dst : FPath) : FS :=
  match fs src with
  | some (.file c _) =>
      let dmode : Nat :=
        match fs dst with
        | some (.file _ m) => m
        | _ => 420
      fun q => if q = dst then some (.file c dmode) else fs q
  | _ => fs

/-- os.chmod: replace the mode bits of the entry at p, if present. -/
def FS.chmod (fs : FS) (p : FPath) (m : Nat) : FS :=
  fun q =>
    if q = p then
      match fs p with
      | some e => some (e.withMode m)
      | none => none
    else fs q

/-- Externally observable actions of the script. -/
inductive Event : Type
  | whichLookup (tool : String)
  | print (s : String)
  | spawnGitReset
  | spawnMake
  | spawnTracy
deriving DecidableEq

/-- Python exceptions the script can raise (only FileNotFoundError arises). -/
inductive PyError : Type
  | fileNotFound (p : FPath)
deriving DecidableEq

/-- How an invocation ends: a normal return, exit(code), or an uncaught
exception. -/
inductive Outcome (α : Type) : Type
  | ok (a : α)
  | exited (code : Nat)
  | raised (e : PyError)
deriving DecidableEq

/-- Result of running a piece of the script: its outcome, the final
filesystem, and the trace of observable events in order. -/
structure Result (α : Type) : Type where
  out : Outcome α
  fs : FS
  trace : List Event

/-- The execution environment: the platform (os.name == "posix"), whether
the required tools resolve on PATH (shutil.which), and the effects and exit
codes of the external child processes. -/
structure Env : Type where
  posix : Bool
  hasPkgConfig : Bool
  hasMake : Bool
  gitResetEffect : FS → FS
  makeEffect : FS → FS
  makeExit : Nat
  tracyExit : Nat

/-- TRACY_SOURCE = ROOT_DIR/third_party/tracy. -/
def TRACY_SOURCE : FPath := ["third_party", "tracy"]

/-- TRACY_DIR = ROOT_DIR/.tracy (the cache directory). -/
def TRACY_DIR : FPath := [".tracy"]

/-- TRACY_BUILT_UNIX_EXEC = TRACY_SOURCE/profiler/build/unix/Tracy-release. -/
def TRACY_BUILT_UNIX_EXEC : FPath :=
  TRACY_SOURCE ++ ["profiler", "build", "unix", "Tracy-release"]

/-- TRACY_TARGET_EXEC = TRACY_DIR/tracy on posix, TRACY_DIR/tracy.exe
otherwise. -/
def TRACY_TARGET_EXEC (posix : Bool) : FPath :=
  if posix then TRACY_DIR ++ ["tracy"] else TRACY_DIR ++ ["tracy.exe"]

/-- The effect of `git reset --hard` run with cwd = TRACY_SOURCE: the
oracle's effect, restricted to paths inside the checkout (a git reset in a
worktree touches nothing outside it). -/
def gitResetFS (env : Env) (fs : FS) : FS :=
  fun p => if isUnder TRACY_SOURCE p then env.gitResetEffect fs p else fs p

/-- create_tracy_dir(): mkdir TRACY_DIR unless it already exists.  0o755 is
the usual resulting mode under the default umask. -/
def create_tracy_dir (fs : FS) : FS :=
  if fs.pathExists TRACY_DIR then fs else fs.mkdir TRACY_DIR 493

/-- clean_tracy_third_party_changes(): if TRACY_SOURCE exists, spawn
`git reset --hard` in it (output and exit status ignored). -/
def clean_tracy_third_party_changes (env : Env) (fs : FS) : FS × List Event :=
  if fs.pathExists TRACY_SOURCE then (gitResetFS env fs, [Event.spawnGitReset])
  else (fs, [])

/-- clean_tracy(): revert the checkout, then remove TRACY_DIR if present. -/
def clean_tracy (env : Env) (fs : FS) : Result Unit :=
  let r := clean_tracy_third_party_changes env fs
  if r.1.pathExists TRACY_DIR then
    { out := .ok (), fs := r.1.rmtree TRACY_DIR, trace := r.2 }
  else
    { out := .ok (), fs := r.1, trace := r.2 }

/-- The advisory hint block printed before invoking make. -/
def hintPrints : List Event :=
  [.print "", .print "",
   .print "you may need to install libglfw3-dev, libcapstone-dev, libdbus-glib-1-dev, libfreetype-dev",
   .print "on ubuntu, you can run:",
   .print "sudo apt install libglfw3-dev libcapstone-dev libdbus-glib-1-dev libfreetype-dev",
   .print "", .print ""]

/-- build_tracy_unix(): check pkg-config and make on PATH (cleaning and
returning False if either is missing), print the hint block, run make; on a
non-zero make exit clean and return False; otherwise copy the built
artifact into the cache if it exists, revert the checkout, return True. -/
def build_tracy_unix (env : Env) (fs : FS) : Result Bool :=
  if !env.hasPkgConfig then
    let c := clean_tracy env fs
    { out := .ok false, fs := c.fs,
      trace := [.whichLookup "pkg-config",
                .print "pkg-config not found in PATH"] ++ c.trace }
  else if !env.hasMake then
    let c := clean_tracy env fs
    { out := .ok false, fs := c.fs,
      trace := [.whichLookup "pkg-config", .whichLookup "make",
                .print "make not found in PATH"] ++ c.trace }
  else
    let fs1 := env.makeEffect fs
    if env.makeExit ≠ 0 then
      let c := clean_tracy env fs1
      { out := .ok false, fs := c.fs,
        trace := [.whichLookup "pkg-config", .whichLookup "make"] ++ hintPrints
                 ++ [.spawnMake, .print "make failed to build tracy"] ++ c.trace }
    else
      let fs2 :=
        if fs1.pathExists TRACY_BUILT_UNIX_EXEC then
          (create_tracy_dir fs1).copyfile TRACY_BUILT_UNIX_EXEC
            (TRACY_TARGET_EXEC env.posix)
        else fs1
      let g := clean_tracy_third_party_changes env fs2
      { out := .ok true, fs := g.1,
        trace := [.whichLookup "pkg-config", .whichLookup "make"] ++ hintPrints
                 ++ [.spawnMake] ++ g.2 }

/-- build_tracy(): the posix build, or print and exit(1) elsewhere. -/
def build_tracy (env : Env) (fs : FS) : Result Bool :=
  if env.posix then build_tracy_unix env fs
  else { out := .exited 1, fs := fs,
         trace := [.print "tracy not supported on windows, yet!"] }

/-- Renders a path the way the script prints it. -/
def pathStr (p : FPath) : String :=
  String.intercalate "/" p

/-- Lines 126-129 of run_tracy(): print the resolved path, stat the target
(raising FileNotFoundError if it is gone), set its executable bit
(stat.S_IEXEC = 0o100 = 64) and launch it, ignoring its exit code. -/
def run_tracy_found (env : Env) (fs : FS) (tr : List Event) : Result Unit :=
  let target := TRACY_TARGET_EXEC env.posix
  let tr1 := tr ++ [Event.print ("tracy found at " ++ pathStr target)]
  match fs target with
  | none => { out := .raised (.fileNotFound target), fs := fs, trace := tr1 }
  | some e =>
      { out := .ok (), fs := fs.chmod target (Nat.lor e.mode 64),
        trace := tr1 ++ [.spawnTracy] }

/-- run_tracy(): build on demand when the target executable is missing,
exiting 1 if the build reports failure; then stat, chmod and launch it. -/
def run_tracy (env : Env) (fs : FS) : Result Unit :=
  if fs.pathExists (TRACY_TARGET_EXEC env.posix) then
    run_tracy_found env fs []
  else
    let pre : List Event := [.print "tracy not found - building tracy"]
    let r := build_tracy env fs
    match r.out with
    | .ok true => run_tracy_found env r.fs (pre ++ r.trace)
    | .ok false =>
        { out := .exited 1, fs := r.fs,
          trace := pre ++ r.trace ++ [.print "failed to build tracy"] }
    | .exited c => { out := .exited c, fs := r.fs, trace := pre ++ r.trace }
    | .raised e => { out := .raised e, fs := r.fs, trace := pre ++ r.trace }

/-- The __main__ block: argparse dispatch over the clean/build/run
subcommands, with no-argument invocation running run_tracy; an unknown
argument makes argparse exit with status 2.  Return values of the
subcommand functions are discarded, so a normal return exits 0. -/
def tracy_main (env : Env) (fs : FS) (argv : List String) : Result Unit :=
  if argv = [] then run_tracy env fs
  else if argv = ["clean"] then clean_tracy env fs
  else if argv = ["build"] then
    let r := build_tracy env fs
    { out :=
        match r.out with
        | .ok _ => .ok ()
        | .exited c => .exited c
        | .raised e => .raised e,
      fs := r.fs, trace := r.trace }
  else if argv = ["run"] then run_tracy env fs
  else { out := .exited 2, fs := fs, trace := [] }

/-- The process exit status produced by an outcome: a normal return of
__main__ exits 0, exit(c) exits c, an uncaught exception exits 1. -/
def exitCode : Outcome Unit → Nat
  | .ok _ => 0
  | .exited c => c
  | .raised _ => 1

/-- The everything-absent filesystem, for concrete scenarios. -/
def fsEmpty : FS := fun _ => none

/-- A posix environment with both tools on PATH, make succeeding but
producing no artifact, and external processes that change nothing. -/
def envNoArtifact : Env :=
  { posix := true, hasPkgConfig := true, hasMake := true,
    gitResetEffect := fun fs => fs, makeEffect := fun fs => fs,
    makeExit := 0, tracyExit := 0 }

/-- A posix environment where pkg-config is missing from PATH. -/
def envNoPkgConfig : Env :=
  { envNoArtifact with hasPkgConfig := false }

/-- A non-posix environment. -/
def envWindows : Env :=
  { envNoArtifact with posix := false }

/-- A posix environment where make succeeds and leaves an artifact with
contents [1, 2, 3] at TRACY_BUILT_UNIX_EXEC. -/
def envArtifact : Env :=
  { envNoArtifact with
    makeEffect := fun fs p =>
      if p = TRACY_BUILT_UNIX_EXEC then some (.file [1, 2, 3] 493) else fs p }

/-- A filesystem holding only the target executable. -/
def fsWithTarget : FS :=
  fun p => if p = TRACY_TARGET_EXEC true then some (.file [7] 420) else none

/-! ## Helper lemmas -/

theorem ctpc_trace_cases (env : Env) (fs : FS) :
    (clean_tracy_third_party_changes env fs).2 = [] ∨
    (clean_tracy_third_party_changes env fs).2 = [Event.spawnGitReset] := by
  unfold clean_tracy_third_party_changes
  split
  · right; rfl
  · left; rfl

theorem ctpc_fs_outside (env : Env) (fs : FS) (p : FPath)
    (h : isUnder TRACY_SOURCE p = false) :
    (clean_tracy_third_party_changes env fs).1 p = fs p := by
  unfold clean_tracy_third_party_changes
  split
  · simp [gitResetFS, h]
  · rfl

theorem clean_trace_eq (env : Env) (fs : FS) :
    (clean_tracy env fs).trace = (clean_tracy_third_party_changes env fs).2 := by
  simp only [clean_tracy]
  split <;> rfl

theorem clean_no_spawnTracy (env : Env) (fs : FS) :
    Event.spawnTracy ∉ (clean_tracy env fs).trace := by
  rw [clean_trace_eq]
  rcases ctpc_trace_cases env fs with h | h <;> simp [h]

theorem ctpc_no_spawnTracy (env : Env) (fs : FS) :
    Event.spawnTracy ∉ (clean_tracy_third_party_changes env fs).2 := by
  rcases ctpc_trace_cases env fs with h | h <;> simp [h]

theorem build_no_spawnTracy (env : Env) (fs : FS) :
    Event.spawnTracy ∉ (build_tracy env fs).trace := by
  unfold build_tracy build_tracy_unix
  split
  · split
    · simp [clean_no_spawnTracy]
    · split
      · simp [clean_no_spawnTracy]
      · split
        · simp [hintPrints, clean_no_spawnTracy]
        · simp [hintPrints, ctpc_no_spawnTracy]
  · simp

theorem clean_cache_absent (env : Env) (fs : FS) :
    ((clean_tracy env fs).fs).pathExists TRACY_DIR = false := by
  have hu : isUnder TRACY_DIR TRACY_DIR = true := by decide
  simp only [clean_tracy]
  split
  · simp [FS.pathExists, FS.rmtree, hu]
  · next h => simpa using h

theorem build_tracy_unix_returns (env : Env) (fs : FS) :
    ∃ b, (build_tracy_unix env fs).out = .ok b := by
  unfold build_tracy_unix
  split
  · exact ⟨false, rfl⟩
  · split
    · exact ⟨false, rfl⟩
    · split
      · exact ⟨false, rfl⟩
      · exact ⟨true, rfl⟩

theorem tracy_main_build_eq (env : Env) (fs : FS) :
    tracy_main env fs ["build"] =
      { out :=
          match (build_tracy env fs).out with
          | .ok _ => .ok ()
          | .exited c => .exited c
          | .raised e => .raised e,
        fs := (build_tracy env fs).fs,
        trace := (build_tracy env fs).trace } := rfl

/-! ## Claim theorems -/

/-- Claim C3: for every prior state of the cache directory (present or
absent), after clean_tracy completes the cache directory does not exist. -/
theorem clean_always_removes_cache (env : Env) (fs : FS) :
    ((clean_tracy env fs).fs).pathExists TRACY_DIR = false :=
  clean_cache_absent env fs

/-- Claim C4: when the vendored source root does not exist, clean_tracy
completes without error, spawns no git-reset child process (its trace is
empty), leaves every path outside the cache directory untouched, and
creates nothing: every path is either unchanged or removed. -/
theorem clean_without_source_only_cache (env : Env) (fs : FS)
    (h : fs.pathExists TRACY_SOURCE = false) :
    (clean_tracy env fs).out = .ok () ∧
    (clean_tracy env fs).trace = [] ∧
    (∀ p, isUnder TRACY_DIR p = false → (clean_tracy env fs).fs p = fs p) ∧
    (∀ p, (clean_tracy env fs).fs p = fs p ∨ (clean_tracy env fs).fs p = none) := by
  have h3 : clean_tracy_third_party_changes env fs = (fs, []) := by
    unfold clean_tracy_third_party_changes
    simp [h]
  simp only [clean_tracy, h3]
  split
  · refine ⟨rfl, rfl, ?_, ?_⟩
    · intro p hp
      simp [FS.rmtree, hp]
    · intro p
      by_cases hp : isUnder TRACY_DIR p = true
      · right; simp [FS.rmtree, hp]
      · left; simp [FS.rmtree, hp]
  · exact ⟨rfl, rfl, fun p _ => rfl, fun p => Or.inl rfl⟩

/-- Witness for C4: cleaning on the empty filesystem. -/
theorem clean_without_source_only_cache_witness :
    fsEmpty.pathExists TRACY_SOURCE = false ∧
    ((clean_tracy envNoArtifact fsEmpty).out = .ok () ∧
     (clean_tracy envNoArtifact fsEmpty).trace = [] ∧
     (∀ p, isUnder TRACY_DIR p = false →
        (clean_tracy envNoArtifact fsEmpty).fs p = fsEmpty p) ∧
     (∀ p, (clean_tracy envNoArtifact fsEmpty).fs p = fsEmpty p ∨
        (clean_tracy envNoArtifact fsEmpty).fs p = none)) :=
  ⟨rfl, clean_without_source_only_cache envNoArtifact fsEmpty rfl⟩

/-- Claim C5: build_tracy on a non-POSIX platform terminates the process
with exit status 1, changes no filesystem state, and its entire trace is
one diagnostic print: no tool lookup and no child process. -/
theorem build_nonposix_exits_one (env : Env) (fs : FS)
    (h : env.posix = false) :
    (build_tracy env fs).out = .exited 1 ∧
    (build_tracy env fs).fs = fs ∧
    (build_tracy env fs).trace
      = [.print "tracy not supported on windows, yet!"] := by
  simp [build_tracy, h]

/-- Witness for C5: the non-POSIX environment. -/
theorem build_nonposix_exits_one_witness :
    envWindows.posix = false ∧
    ((build_tracy envWindows fsEmpty).out = .exited 1 ∧
     (build_tracy envWindows fsEmpty).fs = fsEmpty ∧
     (build_tracy envWindows fsEmpty).trace
       = [.print "tracy not supported on windows, yet!"]) :=
  ⟨rfl, build_nonposix_exits_one envWindows fsEmpty rfl⟩

/-- Claim C8: invoking the program with no command-line arguments behaves
identically (same outcome, filesystem and trace) to invoking it with the
run subcommand. -/
theorem noargs_equals_run (env : Env) (fs : FS) :
    tracy_main env fs [] = tracy_main env fs ["run"] := rfl

/-- Claim C9: the build subcommand exits 0 regardless of the boolean
build_tracy reports, except on a non-POSIX platform where the process
exits 1 directly. -/
theorem build_command_exit_status (env : Env) (fs : FS) :
    exitCode (tracy_main env fs ["build"]).out
      = if env.posix then 0 else 1 := by
  rw [tracy_main_build_eq]
  by_cases hp : env.posix = true
  · obtain ⟨b, hb⟩ := build_tracy_unix_returns env fs
    simp [build_tracy, hp, hb, exitCode]
  · simp only [Bool.not_eq_true] at hp
    simp [build_tracy, hp, exitCode]

/-- Claim C2: when the target executable is absent and the on-demand
build_tracy reports failure, run_tracy terminates the process with exit
status 1 and never launches the target as a child process. -/
theorem run_build_failure_exits_without_launch (env : Env) (fs : FS)
    (h1 : fs.pathExists (TRACY_TARGET_EXEC env.posix) = false)
    (h2 : (build_tracy env fs).out = .ok false) :
    (run_tracy env fs).out = .exited 1 ∧
    Event.spawnTracy ∉ (run_tracy env fs).trace := by
  have hb := build_no_spawnTracy env fs
  simp only [run_tracy, h1, Bool.false_eq_true, if_false, h2]
  exact ⟨by trivial, by simp [hb]⟩

/-- Witness for C2: a POSIX system with pkg-config missing from PATH and an
empty filesystem. -/
theorem run_build_failure_exits_without_launch_witness :
    fsEmpty.pathExists (TRACY_TARGET_EXEC envNoPkgConfig.posix) = false ∧
    (build_tracy envNoPkgConfig fsEmpty).out = .ok false ∧
    ((run_tracy envNoPkgConfig fsEmpty).out = .exited 1 ∧
     Event.spawnTracy ∉ (run_tracy envNoPkgConfig fsEmpty).trace) :=
  ⟨rfl, rfl,
   run_build_failure_exits_without_launch envNoPkgConfig fsEmpty rfl rfl⟩

/-- Claim C7: when the target executable already exists in the cache
directory, run_tracy completes normally without invoking the build: no
make and no git-reset child process is spawned, and no path other than the
target executable (whose executable bit is set) is modified. -/
theorem run_with_target_skips_build (env : Env) (fs : FS)
    (h : fs.pathExists (TRACY_TARGET_EXEC env.posix) = true) :
    (run_tracy env fs).out = .ok () ∧
    Event.spawnMake ∉ (run_tracy env fs).trace ∧
    Event.spawnGitReset ∉ (run_tracy env fs).trace ∧
    (∀ p, p ≠ TRACY_TARGET_EXEC env.posix → (run_tracy env fs).fs p = fs p) := by
  have h' := h
  unfold FS.pathExists at h'
  obtain ⟨e, he⟩ := Option.isSome_iff_exists.mp h'
  simp only [run_tracy, h, if_true, run_tracy_found, he]
  refine ⟨by trivial, by simp, by simp, ?_⟩
  intro p hp
  simp [FS.chmod, hp]

/-- Witness for C7: a filesystem already holding the target executable. -/
theorem run_with_target_skips_build_witness :
    fsWithTarget.pathExists (TRACY_TARGET_EXEC envNoArtifact.posix) = true ∧
    ((run_tracy envNoArtifact fsWithTarget).out = .ok () ∧
     Event.spawnMake ∉ (run_tracy envNoArtifact fsWithTarget).trace ∧
     Event.spawnGitReset ∉ (run_tracy envNoArtifact fsWithTarget).trace ∧
     (∀ p, p ≠ TRACY_TARGET_EXEC envNoArtifact.posix →
        (run_tracy envNoArtifact fsWithTarget).fs p = fsWithTarget p)) :=
  ⟨rfl, run_with_target_skips_build envNoArtifact fsWithTarget rfl⟩

/-- Claim C6: on POSIX with pkg-config or make unresolvable on PATH,
build_tracy prints a diagnostic naming the missing tool, performs the full
clean sequence (so the cache directory is gone afterwards), and returns
failure to the caller without terminating the process; the build subcommand
then exits 0. -/
theorem build_missing_tool_cleans_and_fails (env : Env) (fs : FS)
    (hp : env.posix = true)
    (h : env.hasPkgConfig = false ∨ env.hasMake = false) :
    (build_tracy env fs).out = .ok false ∧
    ((build_tracy env fs).fs).pathExists TRACY_DIR = false ∧
    (env.hasPkgConfig = false →
      Event.print "pkg-config not found in PATH" ∈ (build_tracy env fs).trace) ∧
    (env.hasPkgConfig = true →
      Event.print "make not found in PATH" ∈ (build_tracy env fs).trace) ∧
    exitCode (tracy_main env fs ["build"]).out = 0 := by
  rw [tracy_main_build_eq]
  by_cases hpc : env.hasPkgConfig = true
  · have hm : env.hasMake = false := by
      rcases h with h | h
      · rw [hpc] at h; exact absurd h (by simp)
      · exact h
    simp only [build_tracy, hp, if_true, build_tracy_unix, hpc, hm,
      Bool.not_true, Bool.not_false, Bool.false_eq_true, if_false, if_true]
    refine ⟨by trivial, clean_cache_absent env fs, ?_, ?_, ?_⟩
    · intro hc; exact absurd hc (by simp)
    · intro _; simp
    · simp [exitCode]
  · have hpc' : env.hasPkgConfig = false := by simpa using hpc
    simp only [build_tracy, hp, if_true, build_tracy_unix, hpc',
      Bool.not_false, if_true]
    refine ⟨by trivial, clean_cache_absent env fs, ?_, ?_, ?_⟩
    · intro _; simp
    · intro hc; exact absurd hc (by simp)
    · simp [exitCode]

/-- Witness for C6: a POSIX system with pkg-config missing from PATH. -/
theorem build_missing_tool_cleans_and_fails_witness :
    envNoPkgConfig.posix = true ∧
    (envNoPkgConfig.hasPkgConfig = false ∨ envNoPkgConfig.hasMake = false) ∧
    ((build_tracy envNoPkgConfig fsEmpty).out = .ok false ∧
     ((build_tracy envNoPkgConfig fsEmpty).fs).pathExists TRACY_DIR = false ∧
     (envNoPkgConfig.hasPkgConfig = false →
       Event.print "pkg-config not found in PATH"
         ∈ (build_tracy envNoPkgConfig fsEmpty).trace) ∧
     (envNoPkgConfig.hasPkgConfig = true →
       Event.print "make not found in PATH"
         ∈ (build_tracy envNoPkgConfig fsEmpty).trace) ∧
     exitCode (tracy_main envNoPkgConfig fsEmpty ["build"]).out = 0) :=
  ⟨rfl, Or.inl rfl,
   build_missing_tool_cleans_and_fails envNoPkgConfig fsEmpty rfl (Or.inl rfl)⟩

/-- Claim C1 counterexample: with both tools present and make exiting 0 but
producing no artifact, build_tracy returns success yet the target
executable does not exist in the cache directory. -/
theorem build_success_without_artifact_cex :
    (build_tracy envNoArtifact fsEmpty).out = .ok true ∧
    ((build_tracy envNoArtifact fsEmpty).fs).pathExists
      (TRACY_TARGET_EXEC envNoArtifact.posix) = false :=
  ⟨rfl, rfl⟩

/-- Claim C1 (amended): for every invocation of build_tracy that returns
success in which the make step left the artifact at the expected
build-output path, the target executable path exists in the cache
directory and its contents are byte-identical to the artifact as the make
step produced it. -/
theorem build_success_with_artifact_copies (env : Env) (fs : FS)
    (c : List Nat) (m : Nat)
    (hp : env.posix = true) (hpc : env.hasPkgConfig = true)
    (hm : env.hasMake = true) (hx : env.makeExit = 0)
    (ha : env.makeEffect fs TRACY_BUILT_UNIX_EXEC = some (.file c m)) :
    (build_tracy env fs).out = .ok true ∧
    ∃ m2, ((build_tracy env fs).fs) (TRACY_TARGET_EXEC env.posix)
        = some (.file c m2) := by
  have h1 : (env.makeEffect fs).pathExists TRACY_BUILT_UNIX_EXEC = true := by
    simp [FS.pathExists, ha]
  have h2 : (create_tracy_dir (env.makeEffect fs)) TRACY_BUILT_UNIX_EXEC
      = some (.file c m) := by
    unfold create_tracy_dir
    split
    · exact ha
    · have hne : ¬(TRACY_BUILT_UNIX_EXEC = TRACY_DIR) := by decide
      simp only [FS.mkdir, if_neg hne]
      exact ha
  have h3 : ∃ m2,
      ((create_tracy_dir (env.makeEffect fs)).copyfile TRACY_BUILT_UNIX_EXEC
        (TRACY_TARGET_EXEC env.posix)) (TRACY_TARGET_EXEC env.posix)
        = some (.file c m2) := by
    simp only [FS.copyfile, h2, if_pos rfl]
    simp
  obtain ⟨m2, h3⟩ := h3
  have hfs : (build_tracy env fs).out = .ok true ∧
      (build_tracy env fs).fs
        = (clean_tracy_third_party_changes env
            ((create_tracy_dir (env.makeEffect fs)).copyfile
              TRACY_BUILT_UNIX_EXEC (TRACY_TARGET_EXEC env.posix))).1 := by
    simp only [build_tracy, hp, if_true, build_tracy_unix, hpc, hm, hx,
      Bool.not_true, Bool.false_eq_true, if_false, ne_eq, not_true_eq_false,
      h1, if_true]
    exact ⟨by trivial, by trivial⟩
  refine ⟨hfs.1, ⟨m2, ?_⟩⟩
  rw [hfs.2]
  have hout : isUnder TRACY_SOURCE (TRACY_TARGET_EXEC env.posix) = false := by
    rw [hp]; decide
  rw [ctpc_fs_outside env _ _ hout]
  exact h3

/-- Witness for the amended C1: make leaves an artifact with contents
[1, 2, 3]; after the build the cache holds a byte-identical copy. -/
theorem build_success_with_artifact_copies_witness :
    envArtifact.posix = true ∧ envArtifact.hasPkgConfig = true ∧
    envArtifact.hasMake = true ∧ envArtifact.makeExit = 0 ∧
    envArtifact.makeEffect fsEmpty TRACY_BUILT_UNIX_EXEC
      = some (.file [1, 2, 3] 493) ∧
    ((build_tracy envArtifact fsEmpty).out = .ok true ∧
     ∃ m2, ((build_tracy envArtifact fsEmpty).fs)
         (TRACY_TARGET_EXEC envArtifact.posix) = some (.file [1, 2, 3] m2)) :=
  ⟨rfl, rfl, rfl, rfl, rfl,
   build_success_with_artifact_copies envArtifact fsEmpty [1, 2, 3] 493
     rfl rfl rfl rfl rfl⟩

/-- Claim C10: when the target executable is absent, the on-demand
build_tracy reports success, and the target is still absent afterwards (no
copy into the cache occurred), run_tracy proceeds past the build check,
prints that the executable was found, and then raises an unhandled
file-not-found error when statting the still-missing target, never
launching it. -/
theorem run_phantom_build_raises (env : Env) (fs : FS)
    (h1 : fs.pathExists (TRACY_TARGET_EXEC env.posix) = false)
    (h2 : (build_tracy env fs).out = .ok true)
    (h3 : ((build_tracy env fs).fs).pathExists (TRACY_TARGET_EXEC env.posix)
        = false) :
    (run_tracy env fs).out
      = .raised (.fileNotFound (TRACY_TARGET_EXEC env.posix)) ∧
    Event.print ("tracy found at " ++ pathStr (TRACY_TARGET_EXEC env.posix))
      ∈ (run_tracy env fs).trace ∧
    Event.spawnTracy ∉ (run_tracy env fs).trace := by
  have hb := build_no_spawnTracy env fs
  have h3' : ((build_tracy env fs).fs) (TRACY_TARGET_EXEC env.posix) = none := by
    cases hcase : ((build_tracy env fs).fs) (TRACY_TARGET_EXEC env.posix) with
    | none => rfl
    | some e =>
        rw [FS.pathExists, hcase] at h3
        simp at h3
  simp only [run_tracy, h1, Bool.false_eq_true, if_false, h2,
    run_tracy_found, h3']
  refine ⟨by trivial, by simp, by simp [hb]⟩

/-- Witness for C10: both tools present, make exits 0 but produces no
artifact, so run_tracy crashes on the missing target. -/
theorem run_phantom_build_raises_witness :
    fsEmpty.pathExists (TRACY_TARGET_EXEC envNoArtifact.posix) = false ∧
    (build_tracy envNoArtifact fsEmpty).out = .ok true ∧
    ((build_tracy envNoArtifact fsEmpty).fs).pathExists
      (TRACY_TARGET_EXEC envNoArtifact.posix) = false ∧
    ((run_tracy envNoArtifact fsEmpty).out
       = .raised (.fileNotFound (TRACY_TARGET_EXEC envNoArtifact.posix)) ∧
     Event.print
         ("tracy found at " ++ pathStr (TRACY_TARGET_EXEC envNoArtifact.posix))
       ∈ (run_tracy envNoArtifact fsEmpty).trace ∧
     Event.spawnTracy ∉ (run_tracy envNoArtifact fsEmpty).trace) :=
  ⟨rfl, rfl, rfl, run_phantom_build_raises envNoArtifact fsEmpty rfl rfl rfl⟩
